import Mathlib

/-!
Verification development for the confectionary sales-reporting pipeline
(`src/pages/api/sales/[start]/[end]/index.ts`).

The pipeline joins orders from a payments platform with supplier cost
records from a spreadsheet database, builds a map from catalog object
identifier to supplier cost, and then computes per-line-item fees and
profit, per-order summaries, and a period-level summary.

Modelling decisions, in correspondence with the TypeScript source:

* JavaScript numbers are modelled as `Option ℚ`, written `JsNum`, where
  `none` denotes `NaN`.  All arithmetic occurring in the pipeline is
  exact on the magnitudes involved (integer minor-unit amounts and
  two-decimal major-unit prices), so rationals are faithful; `NaN`
  propagation through `+`, `-`, `*`, `/`, comparisons and `Math.round`
  is modelled explicitly because `Number(undefined)` is `NaN` and the
  source reads optional fields with `Number(x?.y)`.
* `undefined` at the JavaScript value level (as distinct from `NaN`,
  which is a number) is an outer `Option`: a field of type
  `number | undefined` holding a possibly-`NaN` number is
  `Option JsNum`.
* Thrown `Error`s abort the whole request, so the computation lives in
  `Except String`; `Array.prototype.map` with a throwing callback is
  `mapE`, which stops at the first error exactly as the exception would.
* `Math.round` rounds half-way cases toward positive infinity
  (ECMA-262: "if the fractional part is exactly 0.5, rounds to the
  next higher integer"), i.e. `⌊x + 1/2⌋`.
* Division `a / b` with `b = 0` would give `±Infinity`/`NaN` in
  JavaScript; in this code every division is guarded by
  `totalTendered > 0`, so the unreachable `b = 0` branch of `jdiv` is
  mapped to `none`.
-/

/-- A JavaScript number: `none` is `NaN`, `some q` an exact value. -/
abbrev JsNum := Option ℚ

/-- JavaScript `+` on numbers: `NaN` absorbs. -/
def jadd : JsNum → JsNum → JsNum
  | some a, some b => some (a + b)
  | _, _ => none

/-- JavaScript `-` on numbers: `NaN` absorbs. -/
def jsub : JsNum → JsNum → JsNum
  | some a, some b => some (a - b)
  | _, _ => none

/-- JavaScript `*` on numbers: `NaN` absorbs. -/
def jmul : JsNum → JsNum → JsNum
  | some a, some b => some (a * b)
  | _, _ => none

/-- JavaScript `/` on numbers: `NaN` absorbs; the divide-by-zero case
is unreachable in this pipeline (guarded by `totalTendered > 0`). -/
def jdiv : JsNum → JsNum → JsNum
  | some a, some b => if b = 0 then none else some (a / b)
  | _, _ => none

/-- JavaScript `x > 0` (false on `NaN`). -/
def jgtZero : JsNum → Bool
  | some a => decide (0 < a)
  | none => false

/-- JavaScript `x < 0` (false on `NaN`). -/
def jltZero : JsNum → Bool
  | some a => decide (a < 0)
  | none => false

/-- `Math.round`: nearest integer, half-way cases toward `+∞`;
`Math.round(NaN)` is `NaN`. -/
def jround : JsNum → JsNum
  | some a => some ((⌊a + 1 / 2⌋ : ℤ) : ℚ)
  | none => none

/-- `Number(x)` for an optional integer field (`x?.amount`):
a missing field gives `NaN`. -/
def jnumZ : Option ℤ → JsNum
  | some z => some (z : ℚ)
  | none => none

/-- JavaScript truthiness of a `string | undefined` value:
`undefined` and the empty string are falsy. -/
def truthyS : Option String → Bool
  | some s => s ≠ ""
  | none => false

/-- Template-literal rendering of a `string | undefined` value
(`undefined` prints as "undefined"). -/
def optStr : Option String → String
  | some s => s
  | none => "undefined"

/-- `Array.prototype.map` with a callback that may throw: the first
thrown error aborts the whole map. -/
def mapE {α β : Type} (f : α → Except String β) : List α → Except String (List β)
  | [] => .ok []
  | a :: as =>
    match f a with
    | .error e => .error e
    | .ok b =>
      match mapE f as with
      | .error e => .error e
      | .ok bs => .ok (b :: bs)

/-! ## Data model (shapes of the fetched records) -/

/-- A platform money amount in minor currency units
(`Money.amount`, a signed integer). -/
structure Money where
  amount : ℤ
deriving DecidableEq, Repr

/-- A tender of an order: type tag, charged amount, processing fee.
The money fields are optional in the platform's schema. -/
structure Tender where
  type : String
  amountMoney : Option Money
  processingFeeMoney : Option Money
deriving DecidableEq, Repr

/-- A line item of an order.  `quantity` is the numeric value of the
platform's quantity string (the source reads `Number(item.quantity)`). -/
structure LineItem where
  catalogObjectId : Option String
  quantity : ℚ
  itemType : Option String
  totalMoney : Option Money
  name : Option String
deriving DecidableEq, Repr

/-- An order as returned by the order search. -/
structure Order where
  id : Option String
  lineItems : Option (List LineItem)
  tenders : Option (List Tender)
deriving DecidableEq, Repr

/-- The variation data carried by a catalog object: parent item
identifier and SKU, both optional. -/
structure ItemVariationData where
  itemId : Option String
  sku : Option String
deriving DecidableEq, Repr

/-- A catalog object returned by the batch retrieve. -/
structure CatalogObject where
  id : String
  itemVariationData : Option ItemVariationData
deriving DecidableEq, Repr

/-- The value of a spreadsheet record's "Unit Price" field, classified
by its `Number(·)` conversion: either a numeric value, or a value
(including a missing field) whose conversion is `NaN`. -/
inductive UnitPriceField where
  | num (q : ℚ)
  | nonNumeric
deriving DecidableEq, Repr

/-- `Number(·)` applied to a "Unit Price" field value. -/
def unitPriceToNumber : UnitPriceField → JsNum
  | .num q => some q
  | .nonNumeric => none

/-- A spreadsheet (supplier) record: the "Square Catalog ID" field read
through `String(·)`, and the "Unit Price" field. -/
structure AirtableRecord where
  squareCatalogId : String
  unitPrice : UnitPriceField
deriving DecidableEq, Repr

/-- One entry of `airtableItemDetails`. -/
structure AirtableItemDetail where
  sku : String
  unit_cost_inc_vat : JsNum
deriving DecidableEq, Repr

/-- `airtableItemDetails`: for each record,
`sku = String(rec.get("Square Catalog ID"))` and
`unit_cost_inc_vat = Number(rec.get("Unit Price")) ?? 0`.  `Number`
always yields a number (possibly `NaN`), never `null`/`undefined`, so
the `?? 0` leaves the value unchanged; a missing or non-numeric field
therefore yields `NaN`, not `0`.  (The source wraps this in a
`try/catch` whose catch branch would map the cost to `0`, but `Number`
never throws, so the try branch's result always stands.) -/
def airtableItemDetail (r : AirtableRecord) : AirtableItemDetail :=
  { sku := r.squareCatalogId
    unit_cost_inc_vat := unitPriceToNumber r.unitPrice }

/-! ## Cost resolver -/

/-- `object.itemVariationData?.itemId`. -/
def objItemId (o : CatalogObject) : Option String :=
  o.itemVariationData.bind ItemVariationData.itemId

/-- `object.itemVariationData?.sku`. -/
def objSku (o : CatalogObject) : Option String :=
  o.itemVariationData.bind ItemVariationData.sku

/-- One entry of `squareAirtableMap`: find the first spreadsheet record
whose `sku` equals the object's parent item identifier; if none exists
and the object's own SKU is the sentinel "RNDUP", produce a zero-cost
entry; otherwise throw. -/
def squareAirtableEntry (details : List AirtableItemDetail) (object : CatalogObject) :
    Except String (String × AirtableItemDetail) :=
  match details.find? (fun d => some d.sku == objItemId object) with
  | some airtableItem => .ok (object.id, airtableItem)
  | none =>
    if objSku object == some "RNDUP" then
      .ok (object.id, { sku := "RNDUP", unit_cost_inc_vat := some 0 })
    else
      .error ("Unable to find airtable item with ID " ++ optStr (objItemId object))

/-- `squareAirtableMap` as its entry list
(`catalogVariationResponse.result.objects?.map(...) || []`). -/
def squareAirtableMap (objects : Option (List CatalogObject))
    (details : List AirtableItemDetail) :
    Except String (List (String × AirtableItemDetail)) :=
  match objects with
  | none => .ok []
  | some objs => mapE (squareAirtableEntry details) objs

/-- Lookup in the object built by `Object.fromEntries`: the last entry
with the given key wins. -/
def jsObjLookup {α : Type} (entries : List (String × α)) (k : String) : Option α :=
  (entries.reverse.find? (fun e => e.1 == k)).map Prod.snd

/-- `catalogVariationObjectIds`: ids of all line items of all orders,
flattened, keeping exactly the string-valued entries (a missing
`lineItems` array contributes the single element `undefined`, which the
`typeof` filter removes; absent `catalogObjectId`s are removed the same
way).  No deduplication is performed. -/
def catalogVariationObjectIds (orders : List Order) : List String :=
  (((orders.map (fun o => o.lineItems.map (fun ls => ls.map LineItem.catalogObjectId))).flatMap
    (fun x =>
      match x with
      | none => [none]
      | some l => l))).filterMap id

/-! ## Aggregator -/

/-- One entry of the per-order `itemSummaries` array. -/
structure OrderItemSummary where
  square_object_id : Option String
  quantity : JsNum
  unit_cost : Option JsNum
  total_money : ℤ
  fee : JsNum
  profit : Option JsNum
deriving DecidableEq, Repr

/-- `totalTendered`:
`order.tenders?.reduce((a, b) => a + Number(b.amountMoney?.amount), 0) ?? 0`. -/
def totalTendered (o : Order) : JsNum :=
  match o.tenders with
  | none => some 0
  | some ts => ts.foldl (fun a t => jadd a (jnumZ (t.amountMoney.map Money.amount))) (some 0)

/-- `totalSquareFees`:
`order.tenders?.reduce((a, b) => a + Number(b.processingFeeMoney?.amount), 0) ?? 0`. -/
def totalSquareFees (o : Order) : JsNum :=
  match o.tenders with
  | none => some 0
  | some ts => ts.foldl (fun a t => jadd a (jnumZ (t.processingFeeMoney.map Money.amount))) (some 0)

/-- The line item's `unitCost` local (a `number | undefined`): starts
at `0`; if the item has a (truthy) catalog object id it becomes the
map's cost times 100, or `undefined` when the id is absent from the
map; an id-less item that is not a custom amount throws. -/
def unitCostOf (entries : List (String × AirtableItemDetail)) (item : LineItem) :
    Except String (Option JsNum) :=
  if truthyS item.catalogObjectId then
    match jsObjLookup entries (item.catalogObjectId.getD "") with
    | some airtableItem => .ok (some (jmul (some 100) airtableItem.unit_cost_inc_vat))
    | none => .ok none
  else if item.itemType ≠ some "CUSTOM_AMOUNT" then
    .error ("Item does not have a catalog ID (" ++ optStr item.name ++ ")")
  else
    .ok (some (some 0))

/-- `proportionalSquareFee`:
`totalTendered > 0 ? totalSquareFees * (Number(item.totalMoney?.amount) / totalTendered) : 0`. -/
def proportionalSquareFee (tt tf : JsNum) (item : LineItem) : JsNum :=
  if jgtZero tt then jmul tf (jdiv (jnumZ (item.totalMoney.map Money.amount)) tt)
  else some 0

/-- One entry of `itemSummaries` (the mapped record for one line item). -/
def itemSummary (entries : List (String × AirtableItemDetail)) (tt tf : JsNum)
    (item : LineItem) : Except String OrderItemSummary :=
  match unitCostOf entries item with
  | .error e => .error e
  | .ok unitCost =>
    let lineUnitCost := jmul (unitCost.getD (some 0)) (some item.quantity)
    let propFee := proportionalSquareFee tt tf item
    .ok
      { square_object_id := if truthyS item.catalogObjectId then item.catalogObjectId else none
        quantity := some item.quantity
        unit_cost := unitCost.map jround
        total_money := (item.totalMoney.map Money.amount).getD 0
        fee := jround propFee
        profit := unitCost.map (fun _ =>
          jround (jsub (jsub (jnumZ (item.totalMoney.map Money.amount)) lineUnitCost) propFee)) }

/-- One entry of `orderSummaries`. -/
structure OrderSummaryFull where
  id : Option String
  net_recieved : JsNum
  profit : JsNum
  items : List OrderItemSummary
  total_collected : JsNum
  fees : JsNum
  tenders : Option (List String)
deriving DecidableEq, Repr

/-- `itemSummaries.reduce((a, b) => a + (b.profit ?? 0), 0)`:
an `undefined` profit contributes `0`; a `NaN` profit propagates. -/
def itemsProfitSum (items : List OrderItemSummary) : JsNum :=
  items.foldl (fun a b => jadd a (b.profit.getD (some 0))) (some 0)

/-- The summary of one order. -/
def orderSummary (entries : List (String × AirtableItemDetail)) (o : Order) :
    Except String OrderSummaryFull :=
  let tt := totalTendered o
  let tf := totalSquareFees o
  match mapE (itemSummary entries tt tf) (o.lineItems.getD []) with
  | .error e => .error e
  | .ok itemSummaries =>
    .ok
      { id := o.id
        net_recieved := jsub tt tf
        profit := itemsProfitSum itemSummaries
        items := itemSummaries
        total_collected := tt
        fees := tf
        tenders := o.tenders.map (fun ts => ts.map Tender.type) }

/-! ## Period rollup -/

/-- The response body shape. -/
structure SalesSummary where
  start_date : String
  end_date : String
  total_collected : JsNum
  net_recieved : JsNum
  net_recieved_in_bank : JsNum
  profit : JsNum
  fees : JsNum
  loss_from_orders : JsNum
  orders : List OrderSummaryFull
deriving DecidableEq, Repr

/-- `orderSummaries.filter(order => order.tenders?.includes("CARD"))`
(`undefined?.includes` is `undefined`, which is falsy). -/
def inBankOrders (osums : List OrderSummaryFull) : List OrderSummaryFull :=
  osums.filter (fun o => (o.tenders.getD []).contains "CARD")

/-- `orderSummaries.filter(order => order.profit < 0)`
(`NaN < 0` is false). -/
def lossOrders (osums : List OrderSummaryFull) : List OrderSummaryFull :=
  osums.filter (fun o => jltZero o.profit)

/-- `list.reduce((a, b) => a + f(b), 0)` over order summaries. -/
def sumBy (f : OrderSummaryFull → JsNum) (osums : List OrderSummaryFull) : JsNum :=
  osums.foldl (fun a b => jadd a (f b)) (some 0)

/-- The period rollup: the JSON body assembled at the end of the
handler. -/
def periodRollup (startDateString endDateString : String)
    (osums : List OrderSummaryFull) : SalesSummary :=
  { start_date := startDateString
    end_date := endDateString
    total_collected := sumBy OrderSummaryFull.total_collected osums
    net_recieved := sumBy OrderSummaryFull.net_recieved osums
    net_recieved_in_bank := sumBy OrderSummaryFull.net_recieved (inBankOrders osums)
    fees := sumBy OrderSummaryFull.fees osums
    profit := sumBy OrderSummaryFull.profit osums
    loss_from_orders := sumBy OrderSummaryFull.profit (lossOrders osums)
    orders := osums }

/-- The whole computation after the fetches: build
`airtableItemDetails` and `squareAirtableMap`, summarise every order,
and assemble the response; any thrown error aborts with no summary. -/
def salesSummary (startDateString endDateString : String) (orders : List Order)
    (objects : Option (List CatalogObject)) (records : List AirtableRecord) :
    Except String SalesSummary :=
  match squareAirtableMap objects (records.map airtableItemDetail) with
  | .error e => .error e
  | .ok entries =>
    match mapE (orderSummary entries) orders with
    | .error e => .error e
    | .ok osums => .ok (periodRollup startDateString endDateString osums)

/-! ## General lemmas about the embedding -/

/-- `Math.round` moves a value by at most one half. -/
theorem abs_floor_half_sub_le (q : ℚ) : |((⌊q + 1 / 2⌋ : ℤ) : ℚ) - q| ≤ 1 / 2 := by
  rw [abs_le]
  constructor
  · have := Int.lt_floor_add_one (q + 1 / 2)
    push_cast at this ⊢
    linarith
  · have := Int.floor_le (q + 1 / 2)
    push_cast at this ⊢
    linarith

/-- If a throwing map succeeded, the callback succeeded on every element. -/
theorem mapE_ok_of_mem {α β : Type} {f : α → Except String β} :
    ∀ {l : List α} {l' : List β}, mapE f l = .ok l' → ∀ {a : α}, a ∈ l → ∃ b, f a = .ok b := by
  intro l
  induction l with
  | nil => intro l' _ a ha; cases ha
  | cons x xs ih =>
    intro l' h a ha
    unfold mapE at h
    cases hx : f x with
    | error e => rw [hx] at h; exact absurd h (by simp)
    | ok b =>
      rw [hx] at h
      cases hxs : mapE f xs with
      | error e => rw [hxs] at h; exact absurd h (by simp)
      | ok bs =>
        rcases List.mem_cons.mp ha with rfl | ha'
        · exact ⟨b, hx⟩
        · exact ih hxs ha'

/-- If a throwing map succeeded, input and output lists correspond
pointwise. -/
theorem mapE_forall₂ {α β : Type} {f : α → Except String β} :
    ∀ {l : List α} {l' : List β}, mapE f l = .ok l' →
      List.Forall₂ (fun a b => f a = .ok b) l l' := by
  intro l
  induction l with
  | nil =>
    intro l' h
    unfold mapE at h
    injection h with h0
    subst h0
    exact List.Forall₂.nil
  | cons x xs ih =>
    intro l' h
    unfold mapE at h
    cases hx : f x with
    | error e => rw [hx] at h; exact absurd h (by simp)
    | ok b =>
      rw [hx] at h
      cases hxs : mapE f xs with
      | error e => rw [hxs] at h; exact absurd h (by simp)
      | ok bs =>
        rw [hxs] at h
        injection h with h4
        subst h4
        exact List.Forall₂.cons hx (ih hxs)

/-- If the callback throws on some element, a throwing map throws. -/
theorem mapE_error_of_mem {α β : Type} {f : α → Except String β} :
    ∀ {l : List α} {a : α}, a ∈ l → (∀ b, f a ≠ .ok b) →
      ∃ e, mapE f l = .error e := by
  intro l
  induction l with
  | nil => intro a ha; cases ha
  | cons x xs ih =>
    intro a ha hbad
    rcases List.mem_cons.mp ha with rfl | ha'
    · cases hx : f a with
      | error e => exact ⟨e, by unfold mapE; rw [hx]⟩
      | ok b => exact absurd hx (hbad b)
    · cases hx : f x with
      | error e => exact ⟨e, by unfold mapE; rw [hx]⟩
      | ok b =>
        rcases ih ha' hbad with ⟨e, he⟩
        exact ⟨e, by unfold mapE; rw [hx, he]⟩

/-- Folding `jadd` over a list of actual (non-`NaN`) numbers adds them
up. -/
theorem foldl_jadd_somes :
    ∀ (qs : List ℚ) (a : ℚ),
      (qs.map some).foldl jadd (some a) = some (a + qs.sum) := by
  intro qs
  induction qs with
  | nil => intro a; simp
  | cons q qs ih =>
    intro a
    simp only [List.map_cons, List.foldl_cons, List.sum_cons]
    rw [show jadd (some a) (some q) = some (a + q) from rfl, ih]
    ring_nf

/-- A successful item summary in terms of its inputs: the only failure
is the missing-catalog-id throw, and every field is determined by the
line item, the fee inputs and the resolved unit cost. -/
theorem itemSummary_ok_fields {entries : List (String × AirtableItemDetail)} {tt tf : JsNum}
    {item : LineItem} {s : OrderItemSummary}
    (h : itemSummary entries tt tf item = .ok s) :
    ∃ u, unitCostOf entries item = .ok u ∧
      s = { square_object_id := if truthyS item.catalogObjectId then item.catalogObjectId else none
            quantity := some item.quantity
            unit_cost := u.map jround
            total_money := (item.totalMoney.map Money.amount).getD 0
            fee := jround (proportionalSquareFee tt tf item)
            profit := u.map (fun _ =>
              jround (jsub (jsub (jnumZ (item.totalMoney.map Money.amount))
                (jmul (u.getD (some 0)) (some item.quantity)))
                (proportionalSquareFee tt tf item))) } := by
  unfold itemSummary at h
  cases hu : unitCostOf entries item with
  | error e => rw [hu] at h; exact absurd h (by simp)
  | ok u =>
    rw [hu] at h
    injection h with h2
    exact ⟨u, rfl, h2.symm⟩

/-- A successful order summary in terms of its inputs. -/
theorem orderSummary_ok_fields {entries : List (String × AirtableItemDetail)} {o : Order}
    {s : OrderSummaryFull} (h : orderSummary entries o = .ok s) :
    ∃ its,
      mapE (itemSummary entries (totalTendered o) (totalSquareFees o)) (o.lineItems.getD [])
          = .ok its
        ∧ s = { id := o.id
                net_recieved := jsub (totalTendered o) (totalSquareFees o)
                profit := itemsProfitSum its
                items := its
                total_collected := totalTendered o
                fees := totalSquareFees o
                tenders := o.tenders.map (fun ts => ts.map Tender.type) } := by
  simp only [orderSummary] at h
  cases hm : mapE (itemSummary entries (totalTendered o) (totalSquareFees o))
      (o.lineItems.getD []) with
  | error e => rw [hm] at h; exact absurd h (by simp)
  | ok its =>
    rw [hm] at h
    injection h with h2
    exact ⟨its, rfl, h2.symm⟩

/-- A successful whole computation decomposes into a successful cost
map, successful order summaries, and the rollup. -/
theorem salesSummary_ok_parts {sd ed : String} {orders : List Order}
    {objects : Option (List CatalogObject)} {records : List AirtableRecord}
    {S : SalesSummary} (h : salesSummary sd ed orders objects records = .ok S) :
    ∃ entries osums,
      squareAirtableMap objects (records.map airtableItemDetail) = .ok entries
        ∧ mapE (orderSummary entries) orders = .ok osums
        ∧ S = periodRollup sd ed osums := by
  unfold salesSummary at h
  split at h
  next e heq1 => exact absurd h (by simp)
  next entries heq1 =>
    split at h
    next e heq2 => exact absurd h (by simp)
    next osums heq2 =>
      injection h with h3
      exact ⟨entries, osums, heq1, heq2, h3.symm⟩

/-! ## Claims -/

/-- Claim C1: for every catalog object retrieved for the period's line
items, the cost index maps its identifier as follows: a supplier record
whose SKU equals the object's parent item identifier maps the object's
id to that record, whose cost is used at unit-cost resolution as the
cost times 100 (major to minor units); with no matching record but an
object SKU of "RNDUP" the mapped unit cost is 0; with no matching
record and another SKU the whole computation fails with an error naming
the unmatched item identifier, producing no summary. -/
theorem c1_cost_index_mapping :
    (∀ (details : List AirtableItemDetail) (object : CatalogObject),
      (∃ d ∈ details, some d.sku = objItemId object) →
      ∃ d ∈ details, some d.sku = objItemId object ∧
        squareAirtableEntry details object = .ok (object.id, d))
    ∧ (∀ (entries : List (String × AirtableItemDetail)) (item : LineItem)
        (a : AirtableItemDetail),
        truthyS item.catalogObjectId = true →
        jsObjLookup entries (item.catalogObjectId.getD "") = some a →
        unitCostOf entries item = .ok (some (jmul (some 100) a.unit_cost_inc_vat)))
    ∧ (∀ (details : List AirtableItemDetail) (object : CatalogObject),
        details.find? (fun d => some d.sku == objItemId object) = none →
        objSku object = some "RNDUP" →
        squareAirtableEntry details object
            = .ok (object.id, { sku := "RNDUP", unit_cost_inc_vat := some 0 })
          ∧ jmul (some 100) (some 0) = some 0)
    ∧ (∀ (details : List AirtableItemDetail) (object : CatalogObject),
        details.find? (fun d => some d.sku == objItemId object) = none →
        objSku object ≠ some "RNDUP" →
        squareAirtableEntry details object
          = .error ("Unable to find airtable item with ID " ++ optStr (objItemId object)))
    ∧ (∀ (sd ed : String) (orders : List Order) (objs : List CatalogObject)
        (records : List AirtableRecord) (object : CatalogObject) (e : String),
        object ∈ objs →
        squareAirtableEntry (records.map airtableItemDetail) object = .error e →
        ∀ S, salesSummary sd ed orders (some objs) records ≠ .ok S) := by
  refine ⟨?_, ?_, ?_, ?_, ?_⟩
  · intro details object hex
    have hsome : (details.find? (fun d => some d.sku == objItemId object)).isSome := by
      rw [List.find?_isSome]
      rcases hex with ⟨d, hd, hsku⟩
      exact ⟨d, hd, by simp [hsku]⟩
    obtain ⟨d₀, hfind⟩ := Option.isSome_iff_exists.mp hsome
    refine ⟨d₀, List.mem_of_find?_eq_some hfind, ?_, ?_⟩
    · have := List.find?_some hfind
      simpa using this
    · simp [squareAirtableEntry, hfind]
  · intro entries item a htruthy hlook
    simp [unitCostOf, htruthy, hlook]
  · intro details object hfind hsku
    constructor
    · simp [squareAirtableEntry, hfind, hsku]
    · simp [jmul]
  · intro details object hfind hsku
    simp [squareAirtableEntry, hfind, hsku]
  · intro sd ed orders objs records object e hmem herr S hok
    obtain ⟨entries, osums, hmap, -, -⟩ := salesSummary_ok_parts hok
    unfold squareAirtableMap at hmap
    obtain ⟨b, hb⟩ := mapE_ok_of_mem hmap hmem
    rw [herr] at hb
    exact absurd hb (by simp)

/-- A sample supplier cost detail used to exhibit claim C1. -/
def c1SampleDetail : AirtableItemDetail :=
  { sku := "ITEM1", unit_cost_inc_vat := some 2 }

/-- A sample catalog object whose parent item identifier matches
`c1SampleDetail`. -/
def c1SampleObject : CatalogObject :=
  { id := "V1", itemVariationData := some { itemId := some "ITEM1", sku := some "SKU9" } }

/-- Witness for claim C1 at a concrete matching record. -/
theorem c1_cost_index_mapping_witness :
    ∃ d ∈ [c1SampleDetail], some d.sku = objItemId c1SampleObject ∧
      squareAirtableEntry [c1SampleDetail] c1SampleObject = .ok (c1SampleObject.id, d) :=
  c1_cost_index_mapping.1 [c1SampleDetail] c1SampleObject
    ⟨c1SampleDetail, by simp, by simp [objItemId, c1SampleObject, c1SampleDetail]⟩

/-- Claim C4 (code evaluated at the failing input): a supplier record
whose unit price field is missing or non-numeric gets unit cost `NaN`,
not `0` — `Number(·)` yields `NaN` there and `?? 0` does not replace
`NaN` — and the `NaN` propagates through the 100× conversion and
`Math.round` instead of being dropped. -/
theorem c4_nonnumeric_price_gives_nan :
    airtableItemDetail { squareCatalogId := "SKU1", unitPrice := .nonNumeric }
        = { sku := "SKU1", unit_cost_inc_vat := none }
      ∧ (none : JsNum) ≠ some 0
      ∧ jmul (some 100) none = none
      ∧ jround none = none := by
  refine ⟨rfl, by simp, rfl, rfl⟩

/-- An order whose two line items reference the same catalog object. -/
def c5SampleOrder : Order :=
  { id := some "O1"
    lineItems := some
      [{ catalogObjectId := some "A", quantity := 1, itemType := none,
         totalMoney := none, name := none },
       { catalogObjectId := some "A", quantity := 1, itemType := none,
         totalMoney := none, name := none }]
    tenders := none }

/-- Claim C5 counterexample: the id list passed to the catalog batch
lookup is not deduplicated — two line items referencing catalog object
"A" put "A" into the list twice. -/
theorem c5_counterexample :
    catalogVariationObjectIds [c5SampleOrder] = ["A", "A"]
      ∧ ¬ (["A", "A"] : List String).Nodup := by
  exact ⟨rfl, by decide⟩

/-- Claim C5 (amended): the list of catalog object identifiers passed
to the batch lookup is the in-order concatenation, over all orders, of
their line items' catalog object identifiers, skipping line items
without one; an identifier referenced by several line items appears
once per line item, so the list can contain duplicates. -/
theorem c5_ids_no_dedup (orders : List Order) :
    catalogVariationObjectIds orders
      = orders.flatMap (fun o => (o.lineItems.getD []).filterMap LineItem.catalogObjectId) := by
  induction orders with
  | nil => rfl
  | cons o rest ih =>
    unfold catalogVariationObjectIds at ih ⊢
    simp only [List.map_cons, List.flatMap_cons, List.filterMap_append, ih]
    congr 1
    cases h : o.lineItems with
    | none => simp [h]
    | some ls => simp [h, List.filterMap_map]

/-- Claim C10: every rounded money value in a line summary
(`unit_cost`, `fee`, `profit`) is rounded with `Math.round`, which is
round-half-up toward positive infinity: any exact half, including
`-0.5`, goes to the greater integer. -/
theorem c10_rounding_half_up :
    (∀ (entries : List (String × AirtableItemDetail)) (tt tf : JsNum) (item : LineItem)
      (s : OrderItemSummary), itemSummary entries tt tf item = .ok s →
      ∃ u, unitCostOf entries item = .ok u
        ∧ s.unit_cost = u.map jround
        ∧ s.fee = jround (proportionalSquareFee tt tf item)
        ∧ s.profit = u.map (fun _ =>
            jround (jsub (jsub (jnumZ (item.totalMoney.map Money.amount))
              (jmul (u.getD (some 0)) (some item.quantity)))
              (proportionalSquareFee tt tf item))))
    ∧ (∀ q : ℚ, jround (some q) = some ((⌊q + 1 / 2⌋ : ℤ) : ℚ))
    ∧ (∀ n : ℤ, jround (some ((n : ℚ) + 1 / 2)) = some ((n : ℚ) + 1))
    ∧ jround (some (-(1 / 2) : ℚ)) = some 0 := by
  refine ⟨?_, fun q => rfl, ?_, ?_⟩
  · intro entries tt tf item s h
    obtain ⟨u, hu, hs⟩ := itemSummary_ok_fields h
    subst hs
    exact ⟨u, hu, rfl, rfl, rfl⟩
  · intro n
    simp only [jround]
    rw [show (n:ℚ) + 1/2 + 1/2 = ((n + 1 : ℤ) : ℚ) by push_cast; ring, Int.floor_intCast]
    push_cast
    ring_nf
  · simp only [jround]
    norm_num

/-- A custom-amount line item used to exhibit claim C10. -/
def c10SampleItem : LineItem :=
  { catalogObjectId := none, quantity := 1, itemType := some "CUSTOM_AMOUNT",
    totalMoney := some ⟨500⟩, name := none }

/-- Witness for claim C10 at a concrete line item. -/
theorem c10_rounding_half_up_witness :
    ∃ u, unitCostOf [] c10SampleItem = .ok u
      ∧ ({ square_object_id := none, quantity := some 1, unit_cost := some (some 0),
           total_money := 500, fee := some 0,
           profit := some (some 500) } : OrderItemSummary).unit_cost = u.map jround
      ∧ ({ square_object_id := none, quantity := some 1, unit_cost := some (some 0),
           total_money := 500, fee := some 0,
           profit := some (some 500) } : OrderItemSummary).fee
          = jround (proportionalSquareFee (some 0) (some 0) c10SampleItem)
      ∧ ({ square_object_id := none, quantity := some 1, unit_cost := some (some 0),
           total_money := 500, fee := some 0,
           profit := some (some 500) } : OrderItemSummary).profit = Option.map (fun _ =>
            jround (jsub (jsub (jnumZ (c10SampleItem.totalMoney.map Money.amount))
              (jmul (Option.getD u (some 0)) (some c10SampleItem.quantity)))
              (proportionalSquareFee (some 0) (some 0) c10SampleItem))) u :=
  c10_rounding_half_up.1 [] (some 0) (some 0) c10SampleItem _ (by
    simp [itemSummary, unitCostOf, proportionalSquareFee, c10SampleItem, truthyS,
      jgtZero, jsub, jmul, jnumZ, jround]
    norm_num)

/-- The supplier cost detail of the claim C2 scenario: major-unit cost
0.5, i.e. unit cost 50 in minor units. -/
def c2SampleDetail : AirtableItemDetail :=
  { sku := "ITEM1", unit_cost_inc_vat := some (1 / 2) }

/-- The cost-map entries of the claim C2 scenario. -/
def c2SampleEntries : List (String × AirtableItemDetail) :=
  [("V1", c2SampleDetail)]

/-- The line item of the claim C2 scenario: quantity 2, total money
300. -/
def c2SampleItem : LineItem :=
  { catalogObjectId := some "V1", quantity := 2, itemType := some "ITEM",
    totalMoney := some ⟨300⟩, name := some "choc" }

/-- The order of the claim C2 scenario: one line item, one tender of
amount 300 with fee 10. -/
def c2SampleOrder : Order :=
  { id := some "O1", lineItems := some [c2SampleItem],
    tenders := some [{ type := "CARD", amountMoney := some ⟨300⟩,
                       processingFeeMoney := some ⟨10⟩ }] }

/-- The item summary the claim C2 scenario produces. -/
def c2SampleSummary : OrderItemSummary :=
  { square_object_id := some "V1", quantity := some 2, unit_cost := some (some 50),
    total_money := 300, fee := some 10, profit := some (some 190) }

/-- Claim C2: a line item with a resolved unit cost reports profit
`round(totalMoney − unitCost × quantity − proportionalFeeShare)`; a
line item whose catalog id is absent from the cost index reports
undefined unit cost and profit (not 0) and contributes 0 to the order
profit sum; in the scenario (unit cost 50, quantity 2, total money
300, one tender of 300 with fee 10) line profit is 190, order profit
190, net received 290. -/
theorem c2_line_profit :
    (∀ (entries : List (String × AirtableItemDetail)) (tt tf : JsNum) (item : LineItem)
      (a : AirtableItemDetail) (s : OrderItemSummary),
      truthyS item.catalogObjectId = true →
      jsObjLookup entries (item.catalogObjectId.getD "") = some a →
      itemSummary entries tt tf item = .ok s →
      s.profit = some (jround (jsub (jsub (jnumZ (item.totalMoney.map Money.amount))
          (jmul (jmul (some 100) a.unit_cost_inc_vat) (some item.quantity)))
        (proportionalSquareFee tt tf item))))
    ∧ (∀ (entries : List (String × AirtableItemDetail)) (tt tf : JsNum) (item : LineItem)
      (s : OrderItemSummary),
      truthyS item.catalogObjectId = true →
      jsObjLookup entries (item.catalogObjectId.getD "") = none →
      itemSummary entries tt tf item = .ok s →
      s.unit_cost = none ∧ s.profit = none ∧ s.profit.getD (some 0) = some 0)
    ∧ (orderSummary c2SampleEntries c2SampleOrder = .ok
        { id := some "O1", net_recieved := some 290, profit := some 190,
          items := [c2SampleSummary], total_collected := some 300, fees := some 10,
          tenders := some ["CARD"] }) := by
  refine ⟨?_, ?_, ?_⟩
  · intro entries tt tf item a s htruthy hlook hok
    obtain ⟨u, hu, hs⟩ := itemSummary_ok_fields hok
    simp [unitCostOf, htruthy, hlook] at hu
    subst hs
    simp [← hu]
  · intro entries tt tf item s htruthy hlook hok
    obtain ⟨u, hu, hs⟩ := itemSummary_ok_fields hok
    simp [unitCostOf, htruthy, hlook] at hu
    subst hs
    simp [← hu]
  · simp [orderSummary, itemSummary, unitCostOf, proportionalSquareFee, totalTendered,
      totalSquareFees, itemsProfitSum, c2SampleOrder, c2SampleItem, c2SampleEntries,
      c2SampleDetail, c2SampleSummary, jsObjLookup, truthyS, mapE,
      jadd, jsub, jmul, jdiv, jgtZero, jround, jnumZ]
    norm_num

/-- Witness for claim C2 at the scenario's line item. -/
theorem c2_line_profit_witness :
    c2SampleSummary.profit
      = some (jround (jsub (jsub (jnumZ (c2SampleItem.totalMoney.map Money.amount))
          (jmul (jmul (some 100) c2SampleDetail.unit_cost_inc_vat) (some c2SampleItem.quantity)))
        (proportionalSquareFee (some 300) (some 10) c2SampleItem))) :=
  c2_line_profit.1 c2SampleEntries (some 300) (some 10) c2SampleItem c2SampleDetail
    c2SampleSummary (by simp [c2SampleItem, truthyS])
    (by simp [jsObjLookup, c2SampleEntries, c2SampleItem])
    (by
      simp [itemSummary, unitCostOf, proportionalSquareFee, c2SampleItem,
        c2SampleEntries, c2SampleDetail, c2SampleSummary, jsObjLookup, truthyS,
        jadd, jsub, jmul, jdiv, jgtZero, jround, jnumZ]
      norm_num)

/-- A line item with total money 100, used to exhibit claim C3. -/
def c3SampleItem : LineItem :=
  { catalogObjectId := some "V1", quantity := 1, itemType := some "ITEM",
    totalMoney := some ⟨100⟩, name := none }

/-- An order whose single tender has amount −1 (a refund-like negative
tender) and fee 10, used to refute claim C3. -/
def c3SampleOrder : Order :=
  { id := some "O1", lineItems := some [c3SampleItem],
    tenders := some [{ type := "CARD", amountMoney := some ⟨-1⟩,
                       processingFeeMoney := some ⟨10⟩ }] }

/-- Claim C3 counterexample: with `totalTendered = −1` (nonzero) the
code yields fee share 0, not the pro-rata formula value
`10 × (100 / −1) = −1000` the claim requires for every nonzero
`totalTendered`. -/
theorem c3_counterexample :
    totalTendered c3SampleOrder = some (-1)
      ∧ ((-1 : ℚ) ≠ 0)
      ∧ proportionalSquareFee (totalTendered c3SampleOrder) (totalSquareFees c3SampleOrder)
          c3SampleItem = some 0
      ∧ jmul (totalSquareFees c3SampleOrder)
          (jdiv (jnumZ (c3SampleItem.totalMoney.map Money.amount)) (totalTendered c3SampleOrder))
          = some (-1000)
      ∧ (some 0 : JsNum) ≠ (some (-1000) : JsNum) := by
  refine ⟨?_, by norm_num, ?_, ?_, ?_⟩ <;>
    simp [proportionalSquareFee, totalTendered, totalSquareFees, c3SampleOrder, c3SampleItem,
      jadd, jmul, jdiv, jgtZero, jnumZ] <;>
    norm_num

/-- Claim C3 (amended): the proportional fee share equals
`totalFees × (lineItemTotalMoney / totalTendered)` whenever
`totalTendered > 0` (the code's test), and equals 0 otherwise — i.e.
not only when `totalTendered` is 0, but also when it is negative or
`NaN`. -/
theorem c3_fee_share_amended (tt tf : JsNum) (item : LineItem) :
    (jgtZero tt = false → proportionalSquareFee tt tf item = some 0)
    ∧ (∀ T : ℚ, tt = some T → 0 < T →
        proportionalSquareFee tt tf item
          = jmul tf (jdiv (jnumZ (item.totalMoney.map Money.amount)) tt)) := by
  constructor
  · intro h
    simp [proportionalSquareFee, h]
  · intro T hT hpos
    subst hT
    simp [proportionalSquareFee, jgtZero, hpos]

/-- Witness for claim C3 (amended) at a negative and at a positive
total. -/
theorem c3_fee_share_amended_witness :
    proportionalSquareFee (some (-1)) (some 10) c3SampleItem = some 0
      ∧ proportionalSquareFee (some 300) (some 10) c3SampleItem
          = jmul (some 10) (jdiv (jnumZ (c3SampleItem.totalMoney.map Money.amount)) (some 300)) :=
  ⟨(c3_fee_share_amended (some (-1)) (some 10) c3SampleItem).1 (by norm_num [jgtZero]),
   (c3_fee_share_amended (some 300) (some 10) c3SampleItem).2 300 rfl (by norm_num)⟩

/-- The custom-amount line item of the claim C9 scenario: no catalog
id, item type "CUSTOM_AMOUNT", total money 500. -/
def c9SampleItem : LineItem :=
  { catalogObjectId := none, quantity := 1, itemType := some "CUSTOM_AMOUNT",
    totalMoney := some ⟨500⟩, name := some "donation" }

/-- The order of the claim C9 scenario: the custom-amount item and no
tenders (hence no fees). -/
def c9SampleOrder : Order :=
  { id := some "O9", lineItems := some [c9SampleItem], tenders := none }

/-- Claim C9: a line item without a catalog identifier whose item type
is not "CUSTOM_AMOUNT" aborts the whole computation; one whose item
type is "CUSTOM_AMOUNT" gets unit cost 0, and in the scenario (total
money 500, no fees) profit 500. -/
theorem c9_no_catalog_id :
    (∀ (sd ed : String) (orders : List Order) (objects : Option (List CatalogObject))
      (records : List AirtableRecord) (o : Order) (item : LineItem),
      o ∈ orders → item ∈ o.lineItems.getD [] →
      item.catalogObjectId = none → item.itemType ≠ some "CUSTOM_AMOUNT" →
      ∀ S, salesSummary sd ed orders objects records ≠ .ok S)
    ∧ (∀ (entries : List (String × AirtableItemDetail)) (item : LineItem),
        item.catalogObjectId = none → item.itemType = some "CUSTOM_AMOUNT" →
        unitCostOf entries item = .ok (some (some 0)))
    ∧ (orderSummary [] c9SampleOrder = .ok
        { id := some "O9", net_recieved := some 0, profit := some 500,
          items := [{ square_object_id := none, quantity := some 1,
                      unit_cost := some (some 0), total_money := 500, fee := some 0,
                      profit := some (some 500) }],
          total_collected := some 0, fees := some 0, tenders := none }) := by
  refine ⟨?_, ?_, ?_⟩
  · intro sd ed orders objects records o item hmemo hmemi hcid htype S hok
    obtain ⟨entries, osums, hmap, hords, hS⟩ := salesSummary_ok_parts hok
    obtain ⟨s, hs⟩ := mapE_ok_of_mem hords hmemo
    obtain ⟨its, hits, hsrec⟩ := orderSummary_ok_fields hs
    obtain ⟨b, hb⟩ := mapE_ok_of_mem hits hmemi
    obtain ⟨u, hu, -⟩ := itemSummary_ok_fields hb
    simp [unitCostOf, hcid, truthyS, htype] at hu
  · intro entries item hcid htype
    simp [unitCostOf, hcid, truthyS, htype]
  · simp [orderSummary, itemSummary, unitCostOf, proportionalSquareFee, totalTendered,
      totalSquareFees, itemsProfitSum, c9SampleOrder, c9SampleItem, jsObjLookup, truthyS,
      mapE, jadd, jsub, jmul, jdiv, jgtZero, jround, jnumZ]
    norm_num

/-- Witness for claim C9 at the scenario's custom-amount item. -/
theorem c9_no_catalog_id_witness :
    unitCostOf [] c9SampleItem = .ok (some (some 0)) :=
  c9_no_catalog_id.2.1 [] c9SampleItem rfl rfl

/-- A list of nonpositive rationals has nonpositive sum. -/
theorem list_sum_nonpos {l : List ℚ} (h : ∀ x ∈ l, x ≤ 0) : l.sum ≤ 0 := by
  induction l with
  | nil => simp
  | cons a as ih =>
    simp only [List.sum_cons]
    have h1 := h a (by simp)
    have h2 := ih (fun x hx => h x (List.mem_cons_of_mem _ hx))
    linarith

/-- The fold over the loss orders adds up exactly the strictly negative
(non-`NaN`) order profits. -/
theorem lossOrders_foldl (osums : List OrderSummaryFull) : ∀ a : ℚ,
    (lossOrders osums).foldl (fun acc o => jadd acc o.profit) (some a)
      = some (a + (((osums.map OrderSummaryFull.profit).filterMap id).filter
          (fun q => decide (q < 0))).sum) := by
  induction osums with
  | nil => intro a; simp [lossOrders]
  | cons o rest ih =>
    intro a
    simp only [lossOrders, List.filter_cons] at ih ⊢
    cases hp : o.profit with
    | none =>
      have hlt : jltZero (none : JsNum) = false := rfl
      rw [if_neg (by simp [hlt])]
      rw [ih a]
      simp [hp]
    | some q =>
      by_cases hq : q < 0
      · have hlt : jltZero (some q) = true := decide_eq_true hq
        rw [if_pos hlt]
        simp only [List.foldl_cons]
        rw [hp]
        rw [show jadd (some a) (some q) = some (a + q) from rfl]
        rw [ih (a + q)]
        simp [List.filter_cons, hq, add_assoc, hp]
      · have hlt : jltZero (some q) = false := decide_eq_false hq
        rw [if_neg (by simp [hlt])]
        rw [ih a]
        simp [hp, List.filter_cons, hq]

/-- Claim C7: the period's `loss_from_orders` is the fold over exactly
the orders with strictly negative profit; it equals the sum of the
strictly negative order profits and is therefore always ≤ 0. -/
theorem c7_loss_from_orders (sd ed : String) (osums : List OrderSummaryFull) :
    (periodRollup sd ed osums).loss_from_orders = sumBy OrderSummaryFull.profit (lossOrders osums)
      ∧ ∃ l : ℚ, (periodRollup sd ed osums).loss_from_orders = some l
          ∧ l = (((osums.map OrderSummaryFull.profit).filterMap id).filter
              (fun q => decide (q < 0))).sum
          ∧ l ≤ 0 := by
  constructor
  · rfl
  · refine ⟨_, ?_, rfl, ?_⟩
    · show sumBy OrderSummaryFull.profit (lossOrders osums) = _
      unfold sumBy
      rw [lossOrders_foldl osums 0]
      norm_num
    · apply list_sum_nonpos
      intro x hx
      have hx2 := (List.mem_filter.mp hx).2
      have : x < 0 := by simpa using hx2
      linarith

/-- Folding net-received over the card orders stays below folding it
over all orders, given actual (non-`NaN`) values everywhere and
nonnegative values on the non-card orders. -/
theorem inBank_foldl_le (osums : List OrderSummaryFull)
    (hnum : ∀ o ∈ osums, ∃ q : ℚ, o.net_recieved = some q)
    (hpos : ∀ o ∈ osums, ((o.tenders.getD []).contains "CARD") = false →
      ∃ q : ℚ, o.net_recieved = some q ∧ 0 ≤ q) :
    ∀ a b : ℚ, a ≤ b →
      ∃ a' b',
        (inBankOrders osums).foldl (fun acc o => jadd acc o.net_recieved) (some a) = some a'
          ∧ osums.foldl (fun acc o => jadd acc o.net_recieved) (some b) = some b'
          ∧ a' ≤ b' := by
  induction osums with
  | nil => intro a b hab; exact ⟨a, b, rfl, rfl, hab⟩
  | cons o rest ih =>
    intro a b hab
    simp only [inBankOrders, List.filter_cons] at ih ⊢
    have hnum' := fun x hx => hnum x (List.mem_cons_of_mem _ hx)
    have hpos' := fun x hx => hpos x (List.mem_cons_of_mem _ hx)
    by_cases hc : ((o.tenders.getD []).contains "CARD") = true
    · obtain ⟨q, hq⟩ := hnum o (by simp)
      simp only [hc, if_true, List.foldl_cons, hq]
      rw [show jadd (some a) (some q) = some (a + q) from rfl,
        show jadd (some b) (some q) = some (b + q) from rfl]
      exact ih hnum' hpos' (a + q) (b + q) (by linarith)
    · have hcf : ((o.tenders.getD []).contains "CARD") = false := by
        simpa using hc
      obtain ⟨q, hq, hq0⟩ := hpos o (by simp) hcf
      simp only [hcf, Bool.false_eq_true, if_false, List.foldl_cons, hq]
      rw [show jadd (some b) (some q) = some (b + q) from rfl]
      exact ih hnum' hpos' a (b + q) (by linarith)

/-- The card order of the claim C8 counterexample: tender "CARD" of
amount 100 with no fee. -/
def c8CardOrder : Order :=
  { id := some "A", lineItems := none,
    tenders := some [{ type := "CARD", amountMoney := some ⟨100⟩,
                       processingFeeMoney := some ⟨0⟩ }] }

/-- The cash order of the claim C8 counterexample: tender "CASH" of
amount 0 with fee 5, so its net received is −5. -/
def c8CashOrder : Order :=
  { id := some "B", lineItems := none,
    tenders := some [{ type := "CASH", amountMoney := some ⟨0⟩,
                       processingFeeMoney := some ⟨5⟩ }] }

/-- The summary of `c8CardOrder`. -/
def c8CardSummary : OrderSummaryFull :=
  { id := some "A", net_recieved := some 100, profit := some 0, items := [],
    total_collected := some 100, fees := some 0, tenders := some ["CARD"] }

/-- The summary of `c8CashOrder`. -/
def c8CashSummary : OrderSummaryFull :=
  { id := some "B", net_recieved := some (-5), profit := some 0, items := [],
    total_collected := some 0, fees := some 5, tenders := some ["CASH"] }

/-- Claim C8 counterexample: a period with a card order of net 100 and
a cash order of net −5 has `net_recieved_in_bank = 100` strictly above
`net_recieved = 95`. -/
theorem c8_counterexample :
    salesSummary "s" "e" [c8CardOrder, c8CashOrder] none [] = .ok
      { start_date := "s", end_date := "e", total_collected := some 100,
        net_recieved := some 95, net_recieved_in_bank := some 100,
        profit := some 0, fees := some 5, loss_from_orders := some 0,
        orders := [c8CardSummary, c8CashSummary] }
      ∧ c8CardSummary.tenders = some ["CARD"]
      ∧ c8CashSummary.tenders = some ["CASH"]
      ∧ ¬ ((100 : ℚ) ≤ (95 : ℚ)) := by
  refine ⟨?_, rfl, rfl, by norm_num⟩
  simp [salesSummary, squareAirtableMap, mapE, orderSummary, itemSummary, periodRollup,
    sumBy, inBankOrders, lossOrders, itemsProfitSum, totalTendered, totalSquareFees,
    c8CardOrder, c8CashOrder, c8CardSummary, c8CashSummary,
    jadd, jsub, jltZero, jnumZ]
  norm_num

/-- Claim C8 (amended): in a period mixing card and non-card orders,
`net_recieved_in_bank ≤ net_recieved` holds provided every order's net
received is an actual number and every non-card order's net received is
nonnegative (a non-card order with negative net received, e.g. fees
exceeding its tendered amount, breaks the unrestricted claim). -/
theorem c8_in_bank_amended (sd ed : String) (osums : List OrderSummaryFull)
    (_hmix : (∃ o ∈ osums, ((o.tenders.getD []).contains "CARD") = true)
      ∧ (∃ o ∈ osums, ((o.tenders.getD []).contains "CARD") = false))
    (hnum : ∀ o ∈ osums, ∃ q : ℚ, o.net_recieved = some q)
    (hpos : ∀ o ∈ osums, ((o.tenders.getD []).contains "CARD") = false →
      ∃ q : ℚ, o.net_recieved = some q ∧ 0 ≤ q) :
    ∃ a b : ℚ, (periodRollup sd ed osums).net_recieved_in_bank = some a
      ∧ (periodRollup sd ed osums).net_recieved = some b
      ∧ a ≤ b := by
  obtain ⟨a, b, h1, h2, hab⟩ := inBank_foldl_le osums hnum hpos 0 0 le_rfl
  exact ⟨a, b, h1, h2, hab⟩

/-- Witness for claim C8 (amended) at the concrete mixed period with
nonnegative non-card nets. -/
theorem c8_in_bank_amended_witness :
    ∃ a b : ℚ,
      (periodRollup "s" "e" [c8CardSummary,
        { id := some "B", net_recieved := some 50, profit := some 0, items := [],
          total_collected := some 55, fees := some 5,
          tenders := some ["CASH"] }]).net_recieved_in_bank = some a
      ∧ (periodRollup "s" "e" [c8CardSummary,
        { id := some "B", net_recieved := some 50, profit := some 0, items := [],
          total_collected := some 55, fees := some 5,
          tenders := some ["CASH"] }]).net_recieved = some b
      ∧ a ≤ b :=
  c8_in_bank_amended "s" "e" _
    ⟨⟨c8CardSummary, by simp, by simp [c8CardSummary]⟩,
     ⟨{ id := some "B", net_recieved := some 50, profit := some 0, items := [],
        total_collected := some 55, fees := some 5, tenders := some ["CASH"] },
      by simp, by simp⟩⟩
    (by
      intro o ho
      rcases List.mem_cons.mp ho with rfl | ho2
      · exact ⟨100, rfl⟩
      · rcases List.mem_cons.mp ho2 with rfl | h3
        · exact ⟨50, rfl⟩
        · cases h3)
    (by
      intro o ho hcf
      rcases List.mem_cons.mp ho with rfl | ho2
      · simp [c8CardSummary] at hcf
      · rcases List.mem_cons.mp ho2 with rfl | h3
        · exact ⟨50, rfl, by norm_num⟩
        · cases h3)

/-- Summing the rounded pro-rata fee shares stays within half a unit
per line of the exact pro-rata total. -/
theorem sum_floor_fee_bound (T F : ℚ) (hT : T ≠ 0) :
    ∀ ms : List ℚ,
      |((ms.map (fun m => ((⌊F * (m / T) + 1 / 2⌋ : ℤ) : ℚ))).sum) - F * ms.sum / T|
        ≤ (ms.length : ℚ) / 2 := by
  intro ms
  induction ms with
  | nil => simp
  | cons m rest ih =>
    simp only [List.map_cons, List.sum_cons, List.length_cons]
    have h1 := abs_floor_half_sub_le (F * (m / T))
    have key : F * (m + rest.sum) / T = F * (m / T) + F * rest.sum / T := by
      field_simp
      ring
    rw [key]
    have hsplit :
        (((⌊F * (m / T) + 1 / 2⌋ : ℤ) : ℚ)
            + (rest.map (fun m => ((⌊F * (m / T) + 1 / 2⌋ : ℤ) : ℚ))).sum)
            - (F * (m / T) + F * rest.sum / T)
          = (((⌊F * (m / T) + 1 / 2⌋ : ℤ) : ℚ) - F * (m / T))
            + ((rest.map (fun m => ((⌊F * (m / T) + 1 / 2⌋ : ℤ) : ℚ))).sum
              - F * rest.sum / T) := by
      ring
    rw [hsplit]
    have habs := abs_add
      (((⌊F * (m / T) + 1 / 2⌋ : ℤ) : ℚ) - F * (m / T))
      ((rest.map (fun m => ((⌊F * (m / T) + 1 / 2⌋ : ℤ) : ℚ))).sum - F * rest.sum / T)
    push_cast
    push_cast at ih
    linarith

/-- Under a positive total and present line money, the fee column of
the item summaries is the rounded pro-rata share of each line. -/
theorem fees_map_eq {entries : List (String × AirtableItemDetail)} {T F : ℚ}
    (hTpos : 0 < T) :
    ∀ {items : List LineItem} {sitems : List OrderItemSummary},
      List.Forall₂ (fun it si => itemSummary entries (some T) (some F) it = .ok si)
        items sitems →
      (∀ it ∈ items, it.totalMoney.isSome = true) →
      sitems.map OrderItemSummary.fee
        = items.map (fun it =>
            some ((⌊F * (((((it.totalMoney.map Money.amount).getD 0 : ℤ) : ℚ)) / T) + 1 / 2⌋ : ℤ) : ℚ)) := by
  intro items sitems h
  induction h with
  | nil => intro _; rfl
  | @cons it si restItems restSitems hpair hrest ih =>
    intro hm
    obtain ⟨u, hu, hs⟩ := itemSummary_ok_fields hpair
    subst hs
    simp only [List.map_cons]
    congr 1
    · obtain ⟨mny, hmny⟩ := Option.isSome_iff_exists.mp (hm it (List.mem_cons_self _ _))
      have hgt : jgtZero (some T) = true := decide_eq_true hTpos
      simp [proportionalSquareFee, hgt, hmny, jdiv, jmul, jnumZ, jround, hTpos.ne']
    · exact ih (fun it2 hit => hm it2 (by simp [hit]))

/-- The order of the claim C6 counterexample: one custom-amount line
of total money 100 inside an order tendering 300 with fee 30 (the
line's money is far below the tendered total, e.g. a tip-heavy or
multi-component tender). -/
def c6SampleOrder : Order :=
  { id := some "O6",
    lineItems := some
      [{ catalogObjectId := none, quantity := 1, itemType := some "CUSTOM_AMOUNT",
         totalMoney := some ⟨100⟩, name := none }],
    tenders := some [{ type := "CARD", amountMoney := some ⟨300⟩,
                       processingFeeMoney := some ⟨30⟩ }] }

/-- The summary `c6SampleOrder` produces. -/
def c6SampleSummary : OrderSummaryFull :=
  { id := some "O6", net_recieved := some 270, profit := some 90,
    items := [{ square_object_id := none, quantity := some 1,
                unit_cost := some (some 0), total_money := 100, fee := some 10,
                profit := some (some 90) }],
    total_collected := some 300, fees := some 30, tenders := some ["CARD"] }

/-- Claim C6 counterexample: in `c6SampleOrder` the rounded fee shares
sum to 10 while the order's total fees are 30; the difference 20
exceeds the one line item the order has. -/
theorem c6_counterexample :
    orderSummary [] c6SampleOrder = .ok c6SampleSummary
      ∧ (c6SampleSummary.items.map OrderItemSummary.fee).foldl jadd (some 0) = some 10
      ∧ c6SampleSummary.fees = some 30
      ∧ c6SampleSummary.items.length = 1
      ∧ ¬ (|(10 : ℚ) - (30 : ℚ)| ≤ (1 : ℚ)) := by
  refine ⟨?_, ?_, rfl, rfl, ?_⟩
  · simp [orderSummary, itemSummary, unitCostOf, proportionalSquareFee, totalTendered,
      totalSquareFees, itemsProfitSum, c6SampleOrder, c6SampleSummary, truthyS, mapE,
      jadd, jsub, jmul, jdiv, jgtZero, jround, jnumZ]
    norm_num
  · simp [c6SampleSummary, jadd]
  · rw [abs_le]
    norm_num

/-- Claim C6 (amended): for an order with positive `totalTendered`
whose line items' money amounts are all present and sum exactly to
`totalTendered`, the rounded proportional fee shares sum to within
± (number of line items) of the order's total fees.  (Without the
sum condition the claim fails: tendered money not attributed to line
items — e.g. `c6SampleOrder` — skews every share.) -/
theorem c6_fee_sum_amended (entries : List (String × AirtableItemDetail)) (o : Order)
    (s : OrderSummaryFull) (T F : ℚ) (items : List LineItem)
    (hitems : o.lineItems = some items)
    (hok : orderSummary entries o = .ok s)
    (hT : totalTendered o = some T) (hTpos : 0 < T)
    (hF : totalSquareFees o = some F)
    (hm : ∀ it ∈ items, it.totalMoney.isSome = true)
    (hsum : (items.map (fun it => ((((it.totalMoney.map Money.amount).getD 0 : ℤ)) : ℚ))).sum = T) :
    ∃ q : ℚ, (s.items.map OrderItemSummary.fee).foldl jadd (some 0) = some q
      ∧ |q - F| ≤ (s.items.length : ℚ) := by
  obtain ⟨its, hmap, hsrec⟩ := orderSummary_ok_fields hok
  subst hsrec
  rw [hitems, hT, hF] at hmap
  simp only [Option.getD_some] at hmap
  have h2 := mapE_forall₂ hmap
  have hfees := fees_map_eq hTpos h2 hm
  have hlen : its.length = items.length := h2.length_eq.symm
  have hcomp :
      items.map (fun it =>
        some ((⌊F * (((((it.totalMoney.map Money.amount).getD 0 : ℤ) : ℚ)) / T) + 1 / 2⌋ : ℤ) : ℚ))
        = ((items.map (fun it => ((((it.totalMoney.map Money.amount).getD 0 : ℤ)) : ℚ))).map
            (fun m => ((⌊F * (m / T) + 1 / 2⌋ : ℤ) : ℚ))).map some := by
    rw [List.map_map, List.map_map]
    rfl
  have hb := sum_floor_fee_bound T F hTpos.ne'
    (items.map (fun it => ((((it.totalMoney.map Money.amount).getD 0 : ℤ)) : ℚ)))
  rw [hsum, mul_div_assoc, div_self hTpos.ne', mul_one] at hb
  refine ⟨0 + ((items.map (fun it => ((((it.totalMoney.map Money.amount).getD 0 : ℤ)) : ℚ))).map
      (fun m => ((⌊F * (m / T) + 1 / 2⌋ : ℤ) : ℚ))).sum, ?_, ?_⟩
  · show (its.map OrderItemSummary.fee).foldl jadd (some 0) = _
    rw [hfees, hcomp, foldl_jadd_somes]
  · have hlen2 :
        ((items.map (fun it => ((((it.totalMoney.map Money.amount).getD 0 : ℤ)) : ℚ))).length : ℚ)
          = (items.length : ℚ) := by simp
    rw [hlen2] at hb
    have hnn : (0 : ℚ) ≤ (items.length : ℚ) := Nat.cast_nonneg _
    have : (its.length : ℚ) = (items.length : ℚ) := by rw [hlen]
    rw [this]
    rw [zero_add]
    linarith [abs_nonneg (((items.map (fun it => ((((it.totalMoney.map Money.amount).getD 0 : ℤ)) : ℚ))).map
      (fun m => ((⌊F * (m / T) + 1 / 2⌋ : ℤ) : ℚ))).sum - F)]

/-- First line of the claim C6 witness order: money 100. -/
def c6WitnessItem1 : LineItem :=
  { catalogObjectId := none, quantity := 1, itemType := some "CUSTOM_AMOUNT",
    totalMoney := some ⟨100⟩, name := none }

/-- Second line of the claim C6 witness order: money 200. -/
def c6WitnessItem2 : LineItem :=
  { catalogObjectId := none, quantity := 1, itemType := some "CUSTOM_AMOUNT",
    totalMoney := some ⟨200⟩, name := none }

/-- The claim C6 witness order: lines of money 100 and 200 summing to
the tendered 300, fee 10. -/
def c6WitnessOrder : Order :=
  { id := some "W6", lineItems := some [c6WitnessItem1, c6WitnessItem2],
    tenders := some [{ type := "CARD", amountMoney := some ⟨300⟩,
                       processingFeeMoney := some ⟨10⟩ }] }

/-- The summary `c6WitnessOrder` produces: fee shares round(10/3)=3 and
round(20/3)=7. -/
def c6WitnessSummary : OrderSummaryFull :=
  { id := some "W6", net_recieved := some 290, profit := some 290,
    items :=
      [{ square_object_id := none, quantity := some 1, unit_cost := some (some 0),
         total_money := 100, fee := some 3, profit := some (some 97) },
       { square_object_id := none, quantity := some 1, unit_cost := some (some 0),
         total_money := 200, fee := some 7, profit := some (some 193) }],
    total_collected := some 300, fees := some 10, tenders := some ["CARD"] }

/-- Witness for claim C6 (amended) at the concrete two-line order. -/
theorem c6_fee_sum_amended_witness :
    ∃ q : ℚ, (c6WitnessSummary.items.map OrderItemSummary.fee).foldl jadd (some 0) = some q
      ∧ |q - 10| ≤ (c6WitnessSummary.items.length : ℚ) :=
  c6_fee_sum_amended [] c6WitnessOrder c6WitnessSummary 300 10
    [c6WitnessItem1, c6WitnessItem2] rfl
    (by
      simp [orderSummary, itemSummary, unitCostOf, proportionalSquareFee, totalTendered,
        totalSquareFees, itemsProfitSum, c6WitnessOrder, c6WitnessItem1, c6WitnessItem2,
        c6WitnessSummary, truthyS, mapE, jadd, jsub, jmul, jdiv, jgtZero, jround, jnumZ]
      norm_num)
    (by simp [totalTendered, c6WitnessOrder, jadd, jnumZ])
    (by norm_num)
    (by simp [totalSquareFees, c6WitnessOrder, jadd, jnumZ])
    (by
      intro it hit
      rcases List.mem_cons.mp hit with rfl | h2
      · rfl
      · rcases List.mem_cons.mp h2 with rfl | h3
        · rfl
        · cases h3)
    (by
      simp [c6WitnessItem1, c6WitnessItem2]
      norm_num)
